import Mathlib

/-!
Verification of the value model and variant codec of
`src/rustbus/src/params/types.rs`.

The file shallowly embeds the Rust data model (`Param`, `Base`, `Container`,
`Variant`) and the operations the claims are about (`make_signature`, `len`,
`is_empty`, `has_sig`, `sig_str`, `Variant::marshal`).  Strings are embedded as
Lean `String`, `&mut String` buffer passing becomes explicit state passing
(`String → String`), `Vec`/slices become `List`, `HashMap` becomes an
association list (only its entry count matters here), and `Box` disappears.

The `signature` module (the signature-type descriptor `signature::Type` /
`signature::Base` and its rendering `to_str`), the `SignatureBuffer`, the wire
helper `write_signature` and the generic marshal engine `marshal_param` are
external collaborators of this slice and are not part of the source under
study; they are modelled from the spec where a claim needs them (their doc
comments say so), or abstracted as parameters.
-/

namespace Rustbus

/-- Alias for `String`, needed inside the `SigBase`/`Base` namespaces where a
constructor named `String` shadows the type. -/
abbrev Str := String

/-- Modelled from the spec (missing `signature` module): the base (scalar)
signature-type descriptor `signature::Base`.  One constructor per scalar kind
of section 4.2. -/
inductive SigBase where
  | Boolean
  | Byte
  | Int16
  | Uint16
  | Int32
  | Uint32
  | Int64
  | Uint64
  | Double
  | UnixFd
  | String
  | ObjectPath
  | Signature
  deriving Repr, DecidableEq

/-- Modelled from the spec (section 4.2): the one fixed character of each
scalar kind. -/
def SigBase.char : SigBase → Char
  | .Boolean => 'b'
  | .Byte => 'y'
  | .Int16 => 'n'
  | .Uint16 => 'q'
  | .Int32 => 'i'
  | .Uint32 => 'u'
  | .Int64 => 'x'
  | .Uint64 => 't'
  | .Double => 'd'
  | .UnixFd => 'h'
  | .String => 's'
  | .ObjectPath => 'o'
  | .Signature => 'g'

/-- Modelled from the spec (missing `signature` module): `signature::Base::to_str`
appends the kind's character to the text buffer. -/
def SigBase.to_str (b : SigBase) (buf : Str) : Str :=
  buf.push b.char

mutual
/-- Modelled from the spec (missing `signature` module): the structured
signature-type descriptor `signature::Type`. -/
inductive SigType where
  | Base (b : SigBase)
  | Container (c : SigContainer)
/-- Modelled from the spec (missing `signature` module): the container
signature-type descriptor `signature::Container`:
array, dict, struct, variant. -/
inductive SigContainer where
  | Array (t : SigType)
  | Dict (k : SigBase) (v : SigType)
  | Struct (ts : List SigType)
  | Variant
end

mutual
/-- Modelled from the spec (missing `signature` module, section 4.2 rendering
rules): `signature::Type::to_str` appends the rendering of a type descriptor
to the text buffer. -/
def SigType.to_str : SigType → Str → Str
  | .Base b, buf => SigBase.to_str b buf
  | .Container c, buf => SigContainer.to_str c buf
/-- Modelled from the spec (section 4.2): container rendering — array is `a`
plus element type, dict is `a{ k v }`, struct is `( members )`, variant is
`v`. -/
def SigContainer.to_str : SigContainer → Str → Str
  | .Array t, buf => SigType.to_str t (buf.push 'a')
  | .Dict k v, buf =>
      (SigType.to_str v (SigBase.to_str k ((buf.push 'a').push '\x7b'))).push '\x7d'
  | .Struct ts, buf => (SigTypes.to_str ts (buf.push '(')).push ')'
  | .Variant, buf => buf.push 'v'
/-- Modelled from the spec (section 4.2): render a list of member types in
order. -/
def SigTypes.to_str : List SigType → Str → Str
  | [], buf => buf
  | t :: ts, buf => SigTypes.to_str ts (SigType.to_str t buf)
end

/-- The scalar value enum `Base` of `params/types.rs` (lines 16–36): owned
kinds first, then the three borrowed textual kinds.  `Double` stores the raw
`u64` bit pattern, as in the source; machine integers become `Nat`/`Int`. -/
inductive Base where
  | Double (bits : Nat)
  | Byte (v : Nat)
  | Int16 (v : Int)
  | Uint16 (v : Nat)
  | Int32 (v : Int)
  | Uint32 (v : Nat)
  | UnixFd (fd : Nat)
  | Int64 (v : Int)
  | Uint64 (v : Nat)
  | String (s : String)
  | Signature (s : String)
  | ObjectPath (s : String)
  | Boolean (b : Bool)
  | StringRef (s : String)
  | SignatureRef (s : String)
  | ObjectPathRef (s : String)
  deriving Repr, DecidableEq

mutual
/-- The unified value `Param` of `params/types.rs` (lines 8–11). -/
inductive Param where
  | Base (b : Base)
  | Container (c : Container)
/-- The composite value `Container` of `params/types.rs` (lines 44–54).
The `Array`/`ArrayRef`, `Struct`/`StructRef` and `Dict`/`DictRef` structs are
inlined as constructor fields; `DictMap` (a `HashMap`) is embedded as an
association list. -/
inductive Container where
  | Array (element_sig : SigType) (values : List Param)
  | Struct (elements : List Param)
  | Dict (key_sig : SigBase) (value_sig : SigType) (map : List (Base × Param))
  | Variant (v : Variant)
  | ArrayRef (element_sig : SigType) (values : List Param)
  | StructRef (elements : List Param)
  | DictRef (key_sig : SigBase) (value_sig : SigType) (map : List (Base × Param))
/-- The `Variant` struct of `params/types.rs` (lines 57–60): a declared
signature together with one boxed payload value. -/
inductive Variant where
  | mk (sig : SigType) (value : Param)
end

/-- Projection for the `sig` field of `Variant`. -/
def Variant.sig : Variant → SigType
  | .mk s _ => s

/-- Projection for the `value` field of `Variant`. -/
def Variant.value : Variant → Param
  | .mk _ v => v

/-- `Base::make_signature` (`params/types.rs` lines 104–123): push the one
fixed character of the value's kind onto the buffer. -/
def Base.make_signature : Base → Str → Str
  | .Boolean _, buf => buf.push 'b'
  | .Double _, buf => buf.push 'd'
  | .Byte _, buf => buf.push 'y'
  | .Int16 _, buf => buf.push 'n'
  | .Uint16 _, buf => buf.push 'q'
  | .Int32 _, buf => buf.push 'i'
  | .Uint32 _, buf => buf.push 'u'
  | .UnixFd _, buf => buf.push 'h'
  | .Int64 _, buf => buf.push 'x'
  | .Uint64 _, buf => buf.push 't'
  | .ObjectPath _, buf => buf.push 'o'
  | .String _, buf => buf.push 's'
  | .Signature _, buf => buf.push 'g'
  | .ObjectPathRef _, buf => buf.push 'o'
  | .StringRef _, buf => buf.push 's'
  | .SignatureRef _, buf => buf.push 'g'

mutual
/-- `Param::make_signature` (`params/types.rs` lines 89–94): dispatch to the
scalar or container case. -/
def Param.make_signature : Param → Str → Str
  | .Base b, buf => b.make_signature buf
  | .Container c, buf => Container.make_signature c buf
/-- `Container::make_signature` (`params/types.rs` lines 131–173), arm for
arm. -/
def Container.make_signature : Container → Str → Str
  | .Array element_sig _, buf => SigType.to_str element_sig (buf.push 'a')
  | .Dict key_sig value_sig _, buf =>
      (SigType.to_str value_sig
        (SigBase.to_str key_sig ((buf.push 'a').push '\x7b'))).push '\x7d'
  | .Struct elements, buf => (Params.make_signature elements (buf.push '(')).push ')'
  | .Variant _, buf => buf.push 'v'
  | .ArrayRef element_sig _, buf => SigType.to_str element_sig (buf.push 'a')
  | .DictRef key_sig value_sig _, buf =>
      (SigType.to_str value_sig
        (SigBase.to_str key_sig ((buf.push 'a').push '\x7b'))).push '\x7d'
  | .StructRef elements, buf => (Params.make_signature elements (buf.push '(')).push ')'
/-- The `for el in elements { el.make_signature(buf) }` loop of the struct
arms. -/
def Params.make_signature : List Param → Str → Str
  | [], buf => buf
  | p :: ps, buf => Params.make_signature ps (Param.make_signature p buf)
end

/-- `Container::len` (`params/types.rs` lines 175–185). -/
def Container.len : Container → Nat
  | .Array _ values => values.length
  | .ArrayRef _ values => values.length
  | .Dict _ _ m => m.length
  | .DictRef _ _ m => m.length
  | .Struct elements => elements.length
  | .StructRef elements => elements.length
  | .Variant _ => 1

/-- `Container::is_empty` (`params/types.rs` lines 187–189). -/
def Container.is_empty (c : Container) : Bool :=
  c.len == 0

/-- `<Variant as Signature>::sig_str` (`params/types.rs` lines 204–207):
`s_buf.push_static("v")` appends the one-character string `v` to the
signature buffer (the external `SignatureBuffer` is embedded as `String`). -/
def Variant.sig_str (s_buf : String) : String :=
  s_buf ++ "v"

/-- `<Variant as Signature>::has_sig` (`params/types.rs` lines 208–210):
`sig.starts_with('v')` with a `char` pattern tests whether the first character
is `v`. -/
def Variant.has_sig (sig : String) : Bool :=
  sig.data.head? == some 'v'

/-- Bytes of the wire output buffer `ctx.buf` of the external
`MarshalContext`, each a value below 256. -/
abbrev WireBuf := List Nat

/-- The marshal error outcomes this slice can produce: the local
`signature::Error::SignatureTooLong` (converted into a `MarshalError` by the
source's `sig_err.into()`), and errors bubbled up unchanged from the generic
engine, abstracted by a numeric code. -/
inductive MarshalError where
  | SignatureTooLong
  | Engine (code : Nat)
  deriving Repr, DecidableEq

/-- Result of a marshal call.  The Rust code mutates `ctx.buf` in place and
returns `Result<(), MarshalError>`, so both outcomes carry the final buffer
state; `assertViolation` models a failed `debug_assert!`, which panics
instead of returning an error. -/
inductive MarshalOut where
  | ok (buf : WireBuf)
  | error (e : MarshalError) (buf : WireBuf)
  | assertViolation
  deriving Repr, DecidableEq

/-- Modelled from the spec (missing `wire::util::write_signature`): write the
signature to the output as a length-prefixed protocol signature string — a
one-byte length prefix followed by the signature text's bytes (section 4.3
step 4, section 6 wire contract). -/
def write_signature (sig : Str) (buf : WireBuf) : WireBuf :=
  buf ++ sig.length :: sig.data.map Char.toNat

/-- `<Variant as Marshal>::marshal` (`params/types.rs` lines 213–226),
statement for statement.  The externals are parameters: `debug_assertions`
is the Rust build flag deciding whether `debug_assert!` expands to a check
(true in debug builds, false in optimized builds), `validate_signature` is
the external grammar validator `params::validation::validate_signature`
(`true` standing for `is_ok()`), and `marshal_param` is the generic engine
entry point `wire::marshal::container::marshal_param` that the code
tail-calls on the boxed payload with the same context. -/
def Variant.marshal (debug_assertions : Bool) (validate_signature : Str → Bool)
    (marshal_param : Param → WireBuf → MarshalOut) (v : Variant) (buf : WireBuf) :
    MarshalOut :=
  let sig := SigType.to_str v.sig ""
  if sig.length > 255 then
    .error .SignatureTooLong buf
  else if debug_assertions && !validate_signature sig then
    .assertViolation
  else
    marshal_param v.value (write_signature sig buf)

/-- Test input: the signature descriptor of an `n`-fold nested array of
bytes, rendering to `n` copies of `a` followed by `y`. -/
def nestedArraySig : Nat → SigType
  | 0 => .Base .Byte
  | n + 1 => .Container (.Array (nestedArraySig n))

/-!  Lemmas.  The buffer-passing renderers only ever append: each call equals
the incoming buffer followed by the fragment the call produces on an empty
buffer.  -/

theorem SigBase.to_str_append_base (b : SigBase) (buf : Str) :
    b.to_str buf = buf ++ b.to_str "" := by
  apply String.ext
  simp [SigBase.to_str, String.data_push, String.data_append]

mutual
theorem SigType.to_str_append_type (t : SigType) (buf : Str) :
    t.to_str buf = buf ++ t.to_str "" := by
  cases t with
  | Base b =>
    simp only [SigType.to_str]
    exact SigBase.to_str_append_base b buf
  | Container c =>
    simp only [SigType.to_str]
    exact SigContainer.to_str_append_container c buf
theorem SigContainer.to_str_append_container (c : SigContainer) (buf : Str) :
    SigContainer.to_str c buf = buf ++ SigContainer.to_str c "" := by
  cases c with
  | Array t =>
    simp only [SigContainer.to_str]
    rw [SigType.to_str_append_type t (buf.push 'a'),
        SigType.to_str_append_type t (String.push "" 'a')]
    apply String.ext
    simp [String.data_push, String.data_append]
  | Dict k v =>
    simp only [SigContainer.to_str, SigBase.to_str]
    rw [SigType.to_str_append_type v ((((buf.push 'a').push '\x7b')).push k.char),
        SigType.to_str_append_type v (((("".push 'a').push '\x7b')).push k.char)]
    apply String.ext
    simp [String.data_push, String.data_append]
  | Struct ts =>
    simp only [SigContainer.to_str]
    rw [SigTypes.to_str_append_list ts (buf.push '('),
        SigTypes.to_str_append_list ts (String.push "" '(')]
    apply String.ext
    simp [String.data_push, String.data_append]
  | Variant =>
    simp only [SigContainer.to_str]
    apply String.ext
    simp [String.data_push, String.data_append]
theorem SigTypes.to_str_append_list (ts : List SigType) (buf : Str) :
    SigTypes.to_str ts buf = buf ++ SigTypes.to_str ts "" := by
  cases ts with
  | nil =>
    simp only [SigTypes.to_str]
    apply String.ext
    simp [String.data_append]
  | cons t ts =>
    simp only [SigTypes.to_str]
    rw [SigTypes.to_str_append_list ts (SigType.to_str t buf),
        SigType.to_str_append_type t buf,
        SigTypes.to_str_append_list ts (SigType.to_str t ""),
        ]
    apply String.ext
    simp [String.data_append]
end

theorem Base.make_signature_append_base (b : Base) (buf : Str) :
    b.make_signature buf = buf ++ b.make_signature "" := by
  cases b <;>
    (apply String.ext
     simp [Base.make_signature, String.data_push, String.data_append])

mutual
theorem Param.make_signature_append_param (p : Param) (buf : Str) :
    p.make_signature buf = buf ++ p.make_signature "" := by
  cases p with
  | Base b =>
    simp only [Param.make_signature]
    exact Base.make_signature_append_base b buf
  | Container c =>
    simp only [Param.make_signature]
    exact Container.make_signature_append_container c buf
theorem Container.make_signature_append_container (c : Container) (buf : Str) :
    Container.make_signature c buf = buf ++ Container.make_signature c "" := by
  cases c with
  | Array element_sig values =>
    simp only [Container.make_signature]
    rw [SigType.to_str_append_type element_sig (buf.push 'a'),
        SigType.to_str_append_type element_sig (String.push "" 'a')]
    apply String.ext
    simp [String.data_push, String.data_append]
  | ArrayRef element_sig values =>
    simp only [Container.make_signature]
    rw [SigType.to_str_append_type element_sig (buf.push 'a'),
        SigType.to_str_append_type element_sig (String.push "" 'a')]
    apply String.ext
    simp [String.data_push, String.data_append]
  | Dict key_sig value_sig m =>
    simp only [Container.make_signature, SigBase.to_str]
    rw [SigType.to_str_append_type value_sig ((((buf.push 'a').push '\x7b')).push key_sig.char),
        SigType.to_str_append_type value_sig (((("".push 'a').push '\x7b')).push key_sig.char)]
    apply String.ext
    simp [String.data_push, String.data_append]
  | DictRef key_sig value_sig m =>
    simp only [Container.make_signature, SigBase.to_str]
    rw [SigType.to_str_append_type value_sig ((((buf.push 'a').push '\x7b')).push key_sig.char),
        SigType.to_str_append_type value_sig (((("".push 'a').push '\x7b')).push key_sig.char)]
    apply String.ext
    simp [String.data_push, String.data_append]
  | Struct elements =>
    simp only [Container.make_signature]
    rw [Params.make_signature_append_list elements (buf.push '('),
        Params.make_signature_append_list elements (String.push "" '(')]
    apply String.ext
    simp [String.data_push, String.data_append]
  | StructRef elements =>
    simp only [Container.make_signature]
    rw [Params.make_signature_append_list elements (buf.push '('),
        Params.make_signature_append_list elements (String.push "" '(')]
    apply String.ext
    simp [String.data_push, String.data_append]
  | Variant v =>
    simp only [Container.make_signature]
    apply String.ext
    simp [String.data_push, String.data_append]
theorem Params.make_signature_append_list (ps : List Param) (buf : Str) :
    Params.make_signature ps buf = buf ++ Params.make_signature ps "" := by
  cases ps with
  | nil =>
    simp only [Params.make_signature]
    apply String.ext
    simp [String.data_append]
  | cons p ps =>
    simp only [Params.make_signature]
    rw [Params.make_signature_append_list ps (Param.make_signature p buf),
        Param.make_signature_append_param p buf,
        Params.make_signature_append_list ps (Param.make_signature p "")]
    apply String.ext
    simp [String.data_append]
end

/-- The struct member loop renders the head member's fragment first, then the
remaining members' fragments, in order. -/
theorem Params.make_signature_cons (p : Param) (ps : List Param) (buf : Str) :
    Params.make_signature (p :: ps) buf
      = buf ++ Param.make_signature p "" ++ Params.make_signature ps "" := by
  simp only [Params.make_signature]
  rw [Params.make_signature_append_list ps (Param.make_signature p buf),
      Param.make_signature_append_param p buf]

/-- C4: every scalar kind appends exactly its one fixed character, the owned
and borrowed forms of each textual kind append the same character, and the
appended fragment never depends on the stored content. -/
theorem C4_base_make_signature_fixed_char (buf : Str) :
    (∀ b : Bool, (Base.Boolean b).make_signature buf = buf.push 'b') ∧
    (∀ v : Nat, (Base.Byte v).make_signature buf = buf.push 'y') ∧
    (∀ v : Int, (Base.Int16 v).make_signature buf = buf.push 'n') ∧
    (∀ v : Nat, (Base.Uint16 v).make_signature buf = buf.push 'q') ∧
    (∀ v : Int, (Base.Int32 v).make_signature buf = buf.push 'i') ∧
    (∀ v : Nat, (Base.Uint32 v).make_signature buf = buf.push 'u') ∧
    (∀ v : Int, (Base.Int64 v).make_signature buf = buf.push 'x') ∧
    (∀ v : Nat, (Base.Uint64 v).make_signature buf = buf.push 't') ∧
    (∀ bits : Nat, (Base.Double bits).make_signature buf = buf.push 'd') ∧
    (∀ fd : Nat, (Base.UnixFd fd).make_signature buf = buf.push 'h') ∧
    (∀ s : Str, (Base.String s).make_signature buf = buf.push 's') ∧
    (∀ s : Str, (Base.ObjectPath s).make_signature buf = buf.push 'o') ∧
    (∀ s : Str, (Base.Signature s).make_signature buf = buf.push 'g') ∧
    (∀ s t : Str,
      (Base.String s).make_signature buf = (Base.StringRef t).make_signature buf) ∧
    (∀ s t : Str,
      (Base.ObjectPath s).make_signature buf = (Base.ObjectPathRef t).make_signature buf) ∧
    (∀ s t : Str,
      (Base.Signature s).make_signature buf = (Base.SignatureRef t).make_signature buf) :=
  ⟨fun _ => rfl, fun _ => rfl, fun _ => rfl, fun _ => rfl, fun _ => rfl, fun _ => rfl,
   fun _ => rfl, fun _ => rfl, fun _ => rfl, fun _ => rfl, fun _ => rfl, fun _ => rfl,
   fun _ => rfl, fun _ _ => rfl, fun _ _ => rfl, fun _ _ => rfl⟩

/-- C5: arrays (owned or borrowed) render as `a` plus the declared element
signature without inspecting the elements (so also for empty arrays), dicts
as `a` `\x7b` key-sig value-sig `\x7d` from the declared key/value
signatures, structs as `(` plus the members' fragments in order plus `)`,
and owned and borrowed forms render identically for equal declared
signatures and content. -/
theorem C5_container_make_signature_shape (buf : Str) :
    (∀ element_sig values,
      (Container.Array element_sig values).make_signature buf
        = buf ++ "a" ++ SigType.to_str element_sig "") ∧
    (∀ element_sig values,
      (Container.Array element_sig values).make_signature buf
        = (Container.Array element_sig []).make_signature buf) ∧
    (∀ key_sig value_sig m,
      (Container.Dict key_sig value_sig m).make_signature buf
        = buf ++ "a\x7b" ++ SigBase.to_str key_sig ""
            ++ SigType.to_str value_sig "" ++ "\x7d") ∧
    (∀ key_sig value_sig m,
      (Container.Dict key_sig value_sig m).make_signature buf
        = (Container.Dict key_sig value_sig []).make_signature buf) ∧
    (∀ elements,
      (Container.Struct elements).make_signature buf
        = buf ++ "(" ++ Params.make_signature elements "" ++ ")") ∧
    (∀ p ps bufx, Params.make_signature (p :: ps) bufx
        = bufx ++ Param.make_signature p "" ++ Params.make_signature ps "") ∧
    (∀ element_sig values,
      (Container.Array element_sig values).make_signature buf
        = (Container.ArrayRef element_sig values).make_signature buf) ∧
    (∀ key_sig value_sig m,
      (Container.Dict key_sig value_sig m).make_signature buf
        = (Container.DictRef key_sig value_sig m).make_signature buf) ∧
    (∀ elements,
      (Container.Struct elements).make_signature buf
        = (Container.StructRef elements).make_signature buf) := by
  refine ⟨?_, fun _ _ => rfl, ?_, fun _ _ _ => rfl, ?_, ?_, fun _ _ => rfl,
    fun _ _ _ => rfl, fun _ => rfl⟩
  · intro element_sig values
    simp only [Container.make_signature]
    rw [SigType.to_str_append_type element_sig (buf.push 'a')]
    apply String.ext
    simp [String.data_push, String.data_append]
  · intro key_sig value_sig m
    simp only [Container.make_signature, SigBase.to_str]
    rw [SigType.to_str_append_type value_sig ((((buf.push 'a').push '\x7b')).push key_sig.char)]
    apply String.ext
    simp [String.data_push, String.data_append]
  · intro elements
    simp only [Container.make_signature]
    rw [Params.make_signature_append_list elements (buf.push '(')]
    apply String.ext
    simp [String.data_push, String.data_append]
  · intro p ps bufx
    exact Params.make_signature_cons p ps bufx

/-- C6: a variant container always renders the single character `v`,
whatever its declared inner signature and however deeply its payload nests,
and the trait-level `sig_str` for `Variant` likewise appends exactly `v`. -/
theorem C6_variant_fragment_is_v (buf : Str) :
    (∀ v : Variant, (Container.Variant v).make_signature buf = buf.push 'v') ∧
    (∀ s_buf : Str, Variant.sig_str s_buf = s_buf ++ "v") ∧
    Variant.sig_str "" = "v" :=
  ⟨fun _ => rfl, fun _ => rfl, rfl⟩

/-- C7: `len` is the entry count for arrays and dicts, the arity for structs
(owned or borrowed in each case), and always exactly 1 for a variant;
`is_empty` holds exactly when `len` is 0, an empty array or dict (still
carrying its declared element/key/value signature) reports 0 and is-empty,
and a variant is never empty. -/
theorem C7_len_is_empty (c : Container) :
    (∀ element_sig values, (Container.Array element_sig values).len = values.length) ∧
    (∀ element_sig values, (Container.ArrayRef element_sig values).len = values.length) ∧
    (∀ key_sig value_sig m, (Container.Dict key_sig value_sig m).len = m.length) ∧
    (∀ key_sig value_sig m, (Container.DictRef key_sig value_sig m).len = m.length) ∧
    (∀ elements, (Container.Struct elements).len = elements.length) ∧
    (∀ elements, (Container.StructRef elements).len = elements.length) ∧
    (∀ v : Variant, (Container.Variant v).len = 1) ∧
    (c.is_empty = true ↔ c.len = 0) ∧
    (∀ element_sig, (Container.Array element_sig []).len = 0
        ∧ (Container.Array element_sig []).is_empty = true) ∧
    (∀ key_sig value_sig, (Container.Dict key_sig value_sig []).len = 0
        ∧ (Container.Dict key_sig value_sig []).is_empty = true) ∧
    (∀ v : Variant, (Container.Variant v).is_empty = false) := by
  refine ⟨fun _ _ => rfl, fun _ _ => rfl, fun _ _ _ => rfl, fun _ _ _ => rfl,
    fun _ => rfl, fun _ => rfl, fun _ => rfl, ?_, fun _ => ⟨rfl, rfl⟩,
    fun _ _ => ⟨rfl, rfl⟩, fun _ => rfl⟩
  simp [Container.is_empty]

/-- C9: signature derivation only appends — for every value and every
initial buffer content, the result is the unchanged initial buffer followed
by the fragment the value renders on an empty buffer (and, the embedding
being a pure function of the value and the buffer, there is no other state
to read or modify). -/
theorem C9_make_signature_append_only (buf : Str) :
    (∀ p : Param, p.make_signature buf = buf ++ p.make_signature "") ∧
    (∀ b : Base, b.make_signature buf = buf ++ b.make_signature "") ∧
    (∀ c : Container, c.make_signature buf = buf ++ c.make_signature "") :=
  ⟨fun p => Param.make_signature_append_param p buf,
   fun b => Base.make_signature_append_base b buf,
   fun c => Container.make_signature_append_container c buf⟩

/-- C10: `has_sig` accepts exactly the strings whose first character is `v`:
any string of the form `v` followed by arbitrary text is accepted (for
example `vq`), and the empty string is rejected. -/
theorem C10_has_sig_starts_with_v (s : Str) :
    (Variant.has_sig s = true ↔ s.data.head? = some 'v') ∧
    (∀ rest : Str, Variant.has_sig ("v" ++ rest) = true) ∧
    Variant.has_sig "vq" = true ∧
    Variant.has_sig "v" = true ∧
    Variant.has_sig "" = false := by
  refine ⟨?_, ?_, by decide, by decide, by decide⟩
  · simp [Variant.has_sig]
  · intro rest
    have h : ("v" ++ rest).data = 'v' :: rest.data := by
      rw [String.data_append]
      rfl
    simp [Variant.has_sig, h]

/-- C1 (amended): variant marshal renders the variant's declared signature
field (not a signature derived from the payload value), writes that rendering
to the output as a length-prefixed protocol signature string, and then
invokes the generic value-marshal entry point on the boxed payload with the
same output context.  Stated for optimized builds; the rendered string
equals the payload-derived signature only when the declared signature
matches the payload. -/
theorem C1_variant_marshal_writes_declared_sig
    (validate : Str → Bool) (marshal_param : Param → WireBuf → MarshalOut)
    (v : Variant) (buf : WireBuf)
    (hlen : (SigType.to_str v.sig "").length ≤ 255) :
    Variant.marshal false validate marshal_param v buf
      = marshal_param v.value (write_signature (SigType.to_str v.sig "") buf) := by
  unfold Variant.marshal
  simp [Nat.not_lt.mpr hlen]

/-- Witness for C1: a variant declared as byte, holding byte 7, with a
trivial validator and an engine that returns its buffer. -/
theorem C1_witness :
    (SigType.to_str (Variant.mk (SigType.Base SigBase.Byte)
        (Param.Base (Base.Byte 7))).sig "").length ≤ 255 ∧
    Variant.marshal false (fun _ => true) (fun _ b => MarshalOut.ok b)
        (Variant.mk (SigType.Base SigBase.Byte) (Param.Base (Base.Byte 7))) []
      = MarshalOut.ok (write_signature "y" []) :=
  ⟨by decide,
   C1_variant_marshal_writes_declared_sig (fun _ => true) (fun _ b => MarshalOut.ok b)
     (Variant.mk (SigType.Base SigBase.Byte) (Param.Base (Base.Byte 7))) [] (by decide)⟩

/-- Counterexample for C1 as stated: a variant whose declared signature
(`u`, 32-bit unsigned) does not match its payload (byte 7).  Marshal writes
the length-prefixed rendering of the declared signature `u`, while the
signature derived from the payload value is `y`, and the written bytes
differ from those of `y` — so the signature string written does not equal
the signature derived from the payload value. -/
theorem C1_counterexample :
    Variant.marshal false (fun _ => true) (fun _ b => MarshalOut.ok b)
        (Variant.mk (SigType.Base SigBase.Uint32) (Param.Base (Base.Byte 7))) []
      = MarshalOut.ok (write_signature "u" []) ∧
    Param.make_signature (Param.Base (Base.Byte 7)) "" = "y" ∧
    write_signature "u" [] ≠ write_signature "y" [] := by
  refine ⟨by decide, rfl, by decide⟩

/-- C2: variant marshal fails with `SignatureTooLong`, leaving the output
buffer untouched, exactly when the rendered declared signature exceeds 255
bytes — in any build configuration; a rendering of at most 255 bytes (in
particular exactly 255) passes the length check and proceeds to write the
signature and marshal the payload (provided the debug assertion, when
compiled in, passes). -/
theorem C2_variant_sig_length_boundary
    (debug : Bool) (validate : Str → Bool)
    (marshal_param : Param → WireBuf → MarshalOut) (v : Variant) (buf : WireBuf) :
    ((SigType.to_str v.sig "").length > 255 →
      Variant.marshal debug validate marshal_param v buf
        = MarshalOut.error MarshalError.SignatureTooLong buf) ∧
    ((SigType.to_str v.sig "").length ≤ 255 →
      (debug && !validate (SigType.to_str v.sig "")) = false →
      Variant.marshal debug validate marshal_param v buf
        = marshal_param v.value (write_signature (SigType.to_str v.sig "") buf)) := by
  constructor
  · intro h
    unfold Variant.marshal
    simp [h]
  · intro hlen hassert
    unfold Variant.marshal
    simp [Nat.not_lt.mpr hlen, hassert]

set_option maxRecDepth 10000 in
/-- Witness for C2, at the boundary: a 254-fold nested array of bytes
renders to the 255-byte signature `aaa…ay` and marshals successfully, while
a 255-fold nested array renders to 256 bytes and fails with
`SignatureTooLong` without writing any byte. -/
theorem C2_witness :
    ((SigType.to_str (Variant.mk (nestedArraySig 255) (Param.Base (Base.Byte 7))).sig
        "").length > 255 ∧
      Variant.marshal false (fun _ => true) (fun _ b => MarshalOut.ok b)
        (Variant.mk (nestedArraySig 255) (Param.Base (Base.Byte 7))) []
        = MarshalOut.error MarshalError.SignatureTooLong []) ∧
    ((SigType.to_str (Variant.mk (nestedArraySig 254) (Param.Base (Base.Byte 7))).sig
        "").length = 255 ∧
      Variant.marshal false (fun _ => true) (fun _ b => MarshalOut.ok b)
        (Variant.mk (nestedArraySig 254) (Param.Base (Base.Byte 7))) []
        = MarshalOut.ok (write_signature
            (SigType.to_str (nestedArraySig 254) "") [])) :=
  ⟨⟨by decide,
    (C2_variant_sig_length_boundary false (fun _ => true) (fun _ b => MarshalOut.ok b)
      (Variant.mk (nestedArraySig 255) (Param.Base (Base.Byte 7))) []).1 (by decide)⟩,
   ⟨by decide,
    (C2_variant_sig_length_boundary false (fun _ => true) (fun _ b => MarshalOut.ok b)
      (Variant.mk (nestedArraySig 254) (Param.Base (Base.Byte 7))) []).2
      (by decide) (by decide)⟩⟩

/-- C3 (amended): the signature-grammar check in variant marshal is only a
debug assertion, unlike the length check — in optimized builds
(debug assertions off) marshal consults no grammar validator at all, its
outcome is independent of the validator, and any variant whose rendered
declared signature is at most 255 bytes proceeds to write the signature and
marshal the payload even when the validator rejects the signature; with
debug assertions compiled in, a rejected signature causes an assertion
failure (a panic), not a reported marshal error. -/
theorem C3_grammar_check_is_debug_only
    (validate validate2 : Str → Bool)
    (marshal_param : Param → WireBuf → MarshalOut) (v : Variant) (buf : WireBuf) :
    (Variant.marshal false validate marshal_param v buf
      = Variant.marshal false validate2 marshal_param v buf) ∧
    ((SigType.to_str v.sig "").length ≤ 255 →
      Variant.marshal false validate marshal_param v buf
        = marshal_param v.value (write_signature (SigType.to_str v.sig "") buf)) ∧
    ((SigType.to_str v.sig "").length ≤ 255 →
      validate (SigType.to_str v.sig "") = false →
      Variant.marshal true validate marshal_param v buf = MarshalOut.assertViolation) := by
  refine ⟨?_, ?_, ?_⟩
  · unfold Variant.marshal
    simp
  · intro hlen
    unfold Variant.marshal
    simp [Nat.not_lt.mpr hlen]
  · intro hlen hval
    unfold Variant.marshal
    simp [Nat.not_lt.mpr hlen, hval]

/-- Witness for C3: a concrete byte-typed variant under a validator that
rejects everything and one that accepts everything. -/
theorem C3_witness :
    (Variant.marshal false (fun _ => false) (fun _ b => MarshalOut.ok b)
        (Variant.mk (SigType.Base SigBase.Byte) (Param.Base (Base.Byte 7))) []
      = Variant.marshal false (fun _ => true) (fun _ b => MarshalOut.ok b)
        (Variant.mk (SigType.Base SigBase.Byte) (Param.Base (Base.Byte 7))) []) ∧
    (Variant.marshal false (fun _ => false) (fun _ b => MarshalOut.ok b)
        (Variant.mk (SigType.Base SigBase.Byte) (Param.Base (Base.Byte 7))) []
      = MarshalOut.ok (write_signature "y" [])) ∧
    (Variant.marshal true (fun _ => false) (fun _ b => MarshalOut.ok b)
        (Variant.mk (SigType.Base SigBase.Byte) (Param.Base (Base.Byte 7))) []
      = MarshalOut.assertViolation) :=
  ⟨(C3_grammar_check_is_debug_only (fun _ => false) (fun _ => true)
      (fun _ b => MarshalOut.ok b)
      (Variant.mk (SigType.Base SigBase.Byte) (Param.Base (Base.Byte 7))) []).1,
   (C3_grammar_check_is_debug_only (fun _ => false) (fun _ => true)
      (fun _ b => MarshalOut.ok b)
      (Variant.mk (SigType.Base SigBase.Byte) (Param.Base (Base.Byte 7))) []).2.1
      (by decide),
   (C3_grammar_check_is_debug_only (fun _ => false) (fun _ => true)
      (fun _ b => MarshalOut.ok b)
      (Variant.mk (SigType.Base SigBase.Byte) (Param.Base (Base.Byte 7))) []).2.2
      (by decide) (by decide)⟩

/-- Counterexample for C3 as stated: a concrete variant whose rendered
declared signature `y` is within 255 bytes, together with a grammar verdict
that rejects it: in an optimized build (debug assertions off) marshal does
not fail — it never consults the verdict and succeeds — so the grammar
check does not run in every build configuration. -/
theorem C3_counterexample :
    (fun _ : Str => false) (SigType.to_str (SigType.Base SigBase.Byte) "") = false ∧
    (SigType.to_str (SigType.Base SigBase.Byte) "").length ≤ 255 ∧
    Variant.marshal false (fun _ : Str => false) (fun _ b => MarshalOut.ok b)
        (Variant.mk (SigType.Base SigBase.Byte) (Param.Base (Base.Byte 7))) []
      = MarshalOut.ok (write_signature "y" []) := by
  refine ⟨rfl, by decide, by decide⟩

end Rustbus
